import Mathlib

/-!
Shallow embedding of the example application in `examples/simple/main.py` and
proofs of its specified observable behaviour. The script prints a greeting,
an addition result, a processed-data result, the working directory, and (when
extra command-line arguments are present) an echo of those arguments, then
exits normally. The helper module `utils` that the script imports is not part
of the repository snapshot; its four helpers are modelled from the spec and
marked as such in their doc comments.
-/

namespace Bldr

/-- Modelled from the spec: the function `greet` of the missing `utils`
module. Spec section 4.1: input a name string, output a formatted greeting
string incorporating the name; no error conditions, empty string valid. -/
def greet (name : String) : String := "Hello, " ++ name ++ "!"

/-- Modelled from the spec: the function `add` of the missing `utils` module.
Spec section 4.2: input two integers, output their sum. Python integers are
arbitrary precision, embedded as `Int`. -/
def add (x y : Int) : Int := x + y

/-- Modelled from the spec: the function `process_data` of the missing
`utils` module. Spec section 4.3: aggregate (sum) of an ordered sequence of
integers; the empty sequence yields the identity value 0 rather than
failing. -/
def process_data (data : List Int) : Int := data.foldl (fun acc x => acc + x) 0

/-- Operating environment visible to the process: the working directory as
the operating system reports it, or `none` when the environment cannot report
one. A reported directory is an absolute path, hence not the empty string. -/
structure Env where
  cwd : Option String
  cwd_absolute : ∀ d, cwd = some d → d ≠ ""

namespace FileHandler

/-- Modelled from the spec: the method `FileHandler.get_cwd` of the missing
`utils` module. Spec section 4.4: no input; output the absolute path of the
process working directory as a string; fails only if the underlying operating
environment cannot report a working directory. -/
def get_cwd (env : Env) : Except String String :=
  match env.cwd with
  | some d => Except.ok d
  | none => Except.error "OSError: getcwd failed"

end FileHandler

/-- The backslash character. -/
def bslash : Char := Char.ofNat 92

/-- The single-quote character. -/
def squoteChar : Char := Char.ofNat 39

/-- The double-quote character. -/
def dquoteChar : Char := Char.ofNat 34

/-- The single-quote character as a one-character string. -/
def squote : String := String.singleton squoteChar

/-- Quote character CPython repr picks for a string: a single quote, unless
the string contains a single quote and no double quote, in which case a
double quote. -/
def pyQuote (s : String) : Char :=
  if s.data.contains squoteChar && !(s.data.contains dquoteChar)
  then dquoteChar else squoteChar

/-- Lowercase hexadecimal digit, as CPython prints \xXX escapes. -/
def hexDigit (n : Nat) : Char :=
  if n < 10 then Char.ofNat (48 + n) else Char.ofNat (87 + n)

/-- CPython repr escaping of one character given the chosen quote: a
backslash and the quote itself are backslash-escaped; tab, line feed and
carriage return print as two-character escapes; the other ASCII control
characters and delete print as \xXX; every other character prints as
itself. This matches CPython exactly on ASCII characters; the printability
rules CPython applies to non-ASCII characters are not modelled, so theorems
about the rendered line restrict arguments to ASCII. -/
def pyEscapeChar (q c : Char) : List Char :=
  if c = bslash ∨ c = q then [bslash, c]
  else if c = Char.ofNat 9 then [bslash, Char.ofNat 116]
  else if c = Char.ofNat 10 then [bslash, Char.ofNat 110]
  else if c = Char.ofNat 13 then [bslash, Char.ofNat 114]
  else if c.toNat < 32 ∨ c.toNat = 127 then
    [bslash, Char.ofNat 120, hexDigit (c.toNat / 16), hexDigit (c.toNat % 16)]
  else [c]

/-- Python repr of a string: the chosen quote, the escaped characters, the
quote again. Matches CPython for strings of ASCII characters. -/
def pyStrRepr (s : String) : String :=
  String.mk (pyQuote s :: ((s.data.map (pyEscapeChar (pyQuote s))).flatten
    ++ [pyQuote s]))

/-- The comma-separated reprs of the elements: the body of a Python list
repr. -/
def pyListBody : List String → String
  | [] => ""
  | [x] => pyStrRepr x
  | x :: y :: t => pyStrRepr x ++ ", " ++ pyListBody (y :: t)

/-- Python repr of a list of strings, which is how the f-string on line 23
of `main.py` renders `sys.argv[1:]`. -/
def pyListRepr (xs : List String) : String := "[" ++ pyListBody xs ++ "]"

/-- The string is ASCII: the domain on which the modelled repr coincides
with CPython repr exactly. -/
def reprExact (s : String) : Bool := s.data.all (fun c => c.toNat < 128)

/-- The character is printable ASCII. -/
def printableAscii (c : Char) : Bool := 32 ≤ c.toNat && c.toNat ≤ 126

/-- The repr of the string needs no escaping: every character is printable
ASCII and none is a backslash, and the string does not hold both kinds of
quote. For such a string the repr is the string itself between quotes, so
the printed echo line contains the string literally. -/
def reprPlain (s : String) : Bool :=
  s.data.all (fun c => printableAscii c && !(c = bslash)) &&
  !(s.data.contains squoteChar && s.data.contains dquoteChar)

/-- The string `a` occurs in `s` as a contiguous substring. -/
def containsStr (a s : String) : Prop := List.IsInfix a.data s.data

/-- Line printed by `print(greet("Builder"))`, `main.py` line 9. -/
def step_greeting : List String := [greet "Builder"]

/-- Line printed by the addition f-string, `main.py` line 10. -/
def step_addition : List String := ["2 + 3 = " ++ toString (add 2 3)]

/-- Line printed for the processed data, `main.py` lines 13 to 15. -/
def step_data : List String :=
  ["Processed data: " ++ toString (process_data [1, 2, 3, 4, 5])]

/-- Line printed for the working directory, `main.py` lines 18 to 19, given
the directory string the query returned. -/
def step_cwd (d : String) : List String := ["Working directory: " ++ d]

/-- Lines printed by the argument echo, `main.py` lines 22 to 23: one line
when `len(sys.argv) > 1`, none otherwise. -/
def step_args (argv : List String) : List String :=
  if argv.length > 1 then ["Arguments: " ++ pyListRepr (argv.drop 1)] else []

/-- Output of `main` (`main.py` lines 5 to 23) as the list of printed lines,
given the working directory reported during the run and the full argument
vector `sys.argv`. -/
def main (d : String) (argv : List String) : List String :=
  step_greeting ++ step_addition ++ step_data ++ step_cwd d ++ step_args argv

/-- A whole run of the script. The working-directory query may fail, and the
script does not catch that (spec section 7: an unhandled platform error
terminates the process); otherwise the script runs to completion and, since
`main.py` defines no other exit path, the interpreter exits with status 0.
Returns the printed lines and the exit code. -/
def run (env : Env) (argv : List String) : Except String (List String × Nat) :=
  match FileHandler.get_cwd env with
  | Except.ok d => Except.ok (main d argv, 0)
  | Except.error e => Except.error e

/-- Whether a printed line is an argument-echo line, i.e. starts with the
argument-echo label of `main.py` line 23. -/
def isArgsLine (line : String) : Bool :=
  List.isPrefixOf "Arguments: ".data line.data

/-- The string `s` contains `a` and then `b` as substrings, in that order. -/
def containsInOrder (a b s : String) : Prop :=
  ∃ p q r, s = p ++ a ++ q ++ b ++ r

/-- An environment whose working directory is the filesystem root. -/
def rootEnv : Env := ⟨some "/", by intro d hd; cases hd; decide⟩

theorem isArgsLine_wd (d : String) :
    isArgsLine ("Working directory: " ++ d) = false := by
  have h0 : "Working directory: ".data
      = Char.ofNat 87 :: "orking directory: ".data := by decide
  have h : ("Working directory: " ++ d).data
      = Char.ofNat 87 :: ("orking directory: ".data ++ d.data) := by
    rw [String.data_append, h0, List.cons_append]
  unfold isArgsLine
  rw [h]
  rfl

/-- C1: `process_data` applied to the sequence `[1, 2, 3, 4, 5]` returns 15,
and applied to the empty sequence returns the identity value 0 (it is a total
function, so it cannot fail). -/
theorem process_data_examples :
    process_data [1, 2, 3, 4, 5] = 15 ∧ process_data [] = 0 :=
  ⟨rfl, rfl⟩

theorem flatten_escape_eq (q : Char) (l : List Char)
    (h : ∀ c ∈ l, pyEscapeChar q c = [c]) :
    (l.map (pyEscapeChar q)).flatten = l := by
  induction l with
  | nil => rfl
  | cons c cs ih =>
    rw [List.map_cons, List.flatten_cons, h c (List.mem_cons_self c cs),
      ih (fun x hx => h x (List.mem_cons_of_mem c hx))]
    rfl

theorem escape_id (q c : Char) (hq : c ≠ q) (hb : c ≠ bslash)
    (hc : printableAscii c = true) :
    pyEscapeChar q c = [c] := by
  have hc2 : 32 ≤ c.toNat ∧ c.toNat ≤ 126 := by
    simpa [printableAscii] using hc
  have h9 : c ≠ Char.ofNat 9 := by
    intro h
    rw [h] at hc2
    exact absurd hc2.1 (by decide)
  have h10 : c ≠ Char.ofNat 10 := by
    intro h
    rw [h] at hc2
    exact absurd hc2.1 (by decide)
  have h13 : c ≠ Char.ofNat 13 := by
    intro h
    rw [h] at hc2
    exact absurd hc2.1 (by decide)
  unfold pyEscapeChar
  rw [if_neg (fun h => h.elim hb hq), if_neg h9, if_neg h10, if_neg h13,
    if_neg (by omega)]

theorem quote_not_mem (a : String) (hp : reprPlain a = true) (c : Char)
    (hc : c ∈ a.data) : c ≠ pyQuote a := by
  have hnot' : squoteChar ∉ a.data ∨ dquoteChar ∉ a.data := by
    have h2 := (Bool.and_eq_true _ _).mp hp |>.2
    simpa [List.contains, List.elem_iff] using h2
  have hnot : ¬ (squoteChar ∈ a.data ∧ dquoteChar ∈ a.data) := by
    rcases hnot' with h | h
    · exact fun hx => h hx.1
    · exact fun hx => h hx.2
  unfold pyQuote
  by_cases hq : a.data.contains squoteChar && !(a.data.contains dquoteChar)
  · rw [if_pos hq]
    have hd : dquoteChar ∉ a.data := by
      have := (Bool.and_eq_true _ _).mp hq |>.2
      simpa [List.contains, List.elem_iff] using this
    exact fun h => hd (h ▸ hc)
  · rw [if_neg hq]
    intro h
    have hs : squoteChar ∈ a.data := h ▸ hc
    have hs2 : a.data.contains squoteChar = true := by
      simpa [List.contains, List.elem_iff] using hs
    have hd2 : a.data.contains dquoteChar = true := by
      cases hdq : a.data.contains dquoteChar with
      | true => rfl
      | false =>
        have hb : (a.data.contains squoteChar
            && !a.data.contains dquoteChar) = true := by
          rw [hs2, hdq]
          rfl
        exact absurd hb hq
    have hd : dquoteChar ∈ a.data := by
      simpa [List.contains, List.elem_iff] using hd2
    exact hnot ⟨hs, hd⟩

theorem reprPlain_data (a : String) (hp : reprPlain a = true) :
    (pyStrRepr a).data = pyQuote a :: (a.data ++ [pyQuote a]) := by
  have hall : ∀ c ∈ a.data, pyEscapeChar (pyQuote a) c = [c] := by
    intro c hc
    have h1 := (Bool.and_eq_true _ _).mp hp |>.1
    have h2 : printableAscii c = true ∧ c ≠ bslash := by
      have := (List.all_eq_true.mp h1) c hc
      simpa using this
    exact escape_id _ c (quote_not_mem a hp c hc) h2.2 h2.1
  show pyQuote a :: ((a.data.map (pyEscapeChar (pyQuote a))).flatten
    ++ [pyQuote a]) = _
  rw [flatten_escape_eq _ _ hall]

theorem pyListBody_mem (a : String) (xs : List String) (h : a ∈ xs) :
    ∃ u v, (pyListBody xs).data = u ++ ((pyStrRepr a).data ++ v) := by
  induction xs with
  | nil => cases h
  | cons x t ih =>
    rcases List.mem_cons.mp h with rfl | hmem
    · cases t with
      | nil => exact ⟨[], [], by simp [pyListBody]⟩
      | cons y t2 =>
        exact ⟨[], (", " ++ pyListBody (y :: t2)).data, by
          simp [pyListBody, String.data_append]⟩
    · cases t with
      | nil => cases hmem
      | cons y t2 =>
        rcases ih hmem with ⟨u, v, hu⟩
        exact ⟨(pyStrRepr x).data ++ ", ".data ++ u, v, by
          simp [pyListBody, String.data_append, hu, List.append_assoc]⟩

/-- C2 counterexample: launched with the single extra argument a\b (one
backslash), the program prints the echo line with the backslash doubled by
repr escaping, and no printed line contains the argument itself as a
substring; so it is false that the printed line contains the arguments for
every launch with non-empty arguments. -/
theorem args_echo_cex :
    ("Arguments: " ++ pyListRepr ["a\\b"]) ∈ main "/" ["prog", "a\\b"] ∧
    ∀ line ∈ main "/" ["prog", "a\\b"], ¬ containsStr "a\\b" line := by
  unfold containsStr
  decide

/-- C2 amended: with a non-empty argument list beyond the program name the
program prints the argument-echo line, namely "Arguments: " followed by the
Python repr of those arguments (stated for ASCII arguments, where the
modelled repr is exact); that line contains literally every argument whose
repr needs no escaping, and in particular with arguments "a" and "b" it
contains "a" and then "b" in that order. With no arguments beyond the
program name, no printed line is an argument-echo line. -/
theorem args_echo (d prog : String) (args : List String) :
    (args ≠ [] → (∀ a ∈ args, reprExact a = true) →
      ("Arguments: " ++ pyListRepr args) ∈ main d (prog :: args)) ∧
    (args = [] → ∀ line ∈ main d (prog :: args), isArgsLine line = false) ∧
    (∀ a ∈ args, reprPlain a = true →
      containsStr a ("Arguments: " ++ pyListRepr args)) ∧
    containsInOrder "a" "b" ("Arguments: " ++ pyListRepr ["a", "b"]) := by
  refine ⟨?_, ?_, ?_, ?_⟩
  · intro h _hex
    have hpos : 0 < args.length := by
      cases args with
      | nil => exact absurd rfl h
      | cons a t => simp
    simp [main, step_greeting, step_addition, step_data, step_cwd, step_args,
      hpos]
  · intro h line hline
    subst h
    simp [main, step_greeting, step_addition, step_data, step_cwd,
      step_args] at hline
    rcases hline with h1 | h1 | h1 | h1 <;> subst h1
    · decide
    · decide
    · decide
    · exact isArgsLine_wd d
  · intro a ha hp
    rcases pyListBody_mem a args ha with ⟨u, v, hu⟩
    unfold containsStr
    refine ⟨"Arguments: ".data ++ "[".data ++ u ++ [pyQuote a],
      [pyQuote a] ++ v ++ "]".data, ?_⟩
    rw [String.data_append]
    simp [pyListRepr, String.data_append, hu, reprPlain_data a hp,
      List.append_assoc]
  · exact ⟨"Arguments: [" ++ squote, squote ++ ", " ++ squote, squote ++ "]",
      by decide⟩

/-- C2 witness: with arguments "a" and "b" the echo line is printed and
contains "a"; with no extra arguments no printed line is an argument-echo
line. -/
theorem args_echo_witness :
    ("Arguments: " ++ pyListRepr ["a", "b"]) ∈ main "/" ["prog", "a", "b"] ∧
    (∀ line ∈ main "/" ["prog"], isArgsLine line = false) ∧
    containsStr "a" ("Arguments: " ++ pyListRepr ["a", "b"]) :=
  ⟨(args_echo "/" "prog" ["a", "b"]).1 (by decide) (by decide),
   (args_echo "/" "prog" []).2.1 rfl,
   (args_echo "/" "prog" ["a", "b"]).2.2.1 "a" (by decide) (by decide)⟩

/-- C3 counterexample: the run with no extra arguments is a normal run (it
returns exit code 0), yet the argument-echo step writes no line there, so it
is false that each of the five steps writes exactly one line on every normal
run. -/
theorem run_no_args_four_lines :
    run rootEnv ["prog"] = Except.ok (main "/" ["prog"], 0) ∧
    (step_args ["prog"]).length = 0 ∧ (main "/" ["prog"]).length = 4 :=
  ⟨rfl, rfl, rfl⟩

/-- C3 amended: on every normal (non-failing) run the exit code is 0, the
greeting, addition, data-processing and working-directory steps each write
exactly one line, and the argument-echo step writes exactly one line when
extra arguments are present and none otherwise. -/
theorem run_line_counts (env : Env) (argv : List String)
    (out : List String × Nat) (h : run env argv = Except.ok out) :
    out.2 = 0 ∧ step_greeting.length = 1 ∧ step_addition.length = 1 ∧
    step_data.length = 1 ∧ (∀ d, (step_cwd d).length = 1) ∧
    (step_args argv).length = (if argv.length > 1 then 1 else 0) := by
  refine ⟨?_, rfl, rfl, rfl, fun d => rfl, ?_⟩
  · unfold run at h
    cases hc : FileHandler.get_cwd env with
    | ok v => rw [hc] at h; cases h; rfl
    | error e => rw [hc] at h; cases h
  · unfold step_args
    by_cases hl : argv.length > 1
    · rw [if_pos hl, if_pos hl]
      rfl
    · rw [if_neg hl, if_neg hl]
      rfl

/-- C3 witness: a concrete normal run with one extra argument has exit code 0
and every step, the argument echo included, writes exactly one line. -/
theorem run_line_counts_witness :
    (main "/" ["prog", "a"], 0).2 = 0 ∧ step_greeting.length = 1 ∧
    step_addition.length = 1 ∧ step_data.length = 1 ∧
    (∀ d, (step_cwd d).length = 1) ∧
    (step_args ["prog", "a"]).length
      = (if (["prog", "a"] : List String).length > 1 then 1 else 0) :=
  run_line_counts rootEnv ["prog", "a"] (main "/" ["prog", "a"], 0) rfl

/-- C4: `add 2 3 = 5`, that result renders as the line reporting 2 + 3, and
every run of `main` prints that line. -/
theorem add_example (d : String) (argv : List String) :
    add 2 3 = 5 ∧ ("2 + 3 = " ++ toString (add 2 3)) ∈ main d argv ∧
    "2 + 3 = " ++ toString (add 2 3) = "2 + 3 = 5" := by
  refine ⟨rfl, ?_, by decide⟩
  simp [main, step_greeting, step_addition, step_data, step_cwd, step_args]

/-- C5: `add` is commutative and associative on the (arbitrary-precision)
integers. -/
theorem add_comm_assoc (x y z : Int) :
    add x y = add y x ∧ add (add x y) z = add x (add y z) :=
  ⟨Int.add_comm x y, Int.add_assoc x y z⟩

/-- C6: `greet "Builder"` contains the substring "Builder", and `greet` is a
total function producing a well-formed greeting incorporating any name
string, so no input makes it fail. -/
theorem greet_contains_name :
    (∃ p r, greet "Builder" = p ++ "Builder" ++ r) ∧
    ∀ name, ∃ p r, greet name = p ++ name ++ r :=
  ⟨⟨"Hello, ", "!", rfl⟩, fun _ => ⟨"Hello, ", "!", rfl⟩⟩

/-- C7: the pure helpers `greet`, `add` and `process_data` are deterministic:
two calls on the same input give the same output. In this embedding the
helpers are functions of their arguments alone, reflecting that the modelled
Python functions read no mutable or ambient state. -/
theorem pure_helpers_deterministic (name : String) (x y : Int)
    (data : List Int) :
    greet name = greet name ∧ add x y = add x y ∧
    process_data data = process_data data :=
  ⟨rfl, rfl, rfl⟩

/-- C8: whenever the environment reports a working directory, `get_cwd`
returns exactly that directory, a non-empty string; it fails precisely when
the environment cannot report one. -/
theorem get_cwd_reports (env : Env) :
    (∀ d, env.cwd = some d →
      FileHandler.get_cwd env = Except.ok d ∧ d ≠ "") ∧
    (env.cwd = none →
      FileHandler.get_cwd env = Except.error "OSError: getcwd failed") := by
  constructor
  · intro d hd
    refine ⟨?_, env.cwd_absolute d hd⟩
    unfold FileHandler.get_cwd
    rw [hd]
  · intro h
    unfold FileHandler.get_cwd
    rw [h]

/-- C8 witness: in the environment whose working directory is the filesystem
root, `get_cwd` returns the root path, which is non-empty. -/
theorem get_cwd_reports_witness :
    FileHandler.get_cwd rootEnv = Except.ok "/" ∧ "/" ≠ "" :=
  (get_cwd_reports rootEnv).1 "/" rfl

/-- C9: `main` prints exactly four lines when the argument vector has length
at most one and exactly five when extra arguments are present, and the first
three lines are always the greeting, the addition result and the
processed-data result, in that order. -/
theorem main_line_counts (d : String) (argv : List String) :
    (argv.length ≤ 1 → (main d argv).length = 4) ∧
    (1 < argv.length → (main d argv).length = 5) ∧
    (main d argv).take 3
      = [greet "Builder", "2 + 3 = " ++ toString (add 2 3),
         "Processed data: " ++ toString (process_data [1, 2, 3, 4, 5])] := by
  refine ⟨?_, ?_, ?_⟩
  · intro h
    have hn : ¬ argv.length > 1 := by omega
    simp [main, step_greeting, step_addition, step_data, step_cwd, step_args,
      hn]
  · intro h
    simp [main, step_greeting, step_addition, step_data, step_cwd, step_args,
      h]
  · simp [main, step_greeting, step_addition, step_data, step_cwd, step_args]

/-- C9 witness: with no extra arguments the output has four lines, with one
extra argument it has five. -/
theorem main_line_counts_witness :
    (main "/" ["prog"]).length = 4 ∧ (main "/" ["prog", "a"]).length = 5 :=
  ⟨(main_line_counts "/" ["prog"]).1 (by decide),
   (main_line_counts "/" ["prog", "a"]).2.1 (by decide)⟩

/-- C10: the printed output never depends on the program name: two launches
whose argument vectors agree beyond the first element produce identical
output, whatever the first element is. -/
theorem output_ignores_program_name (d p1 p2 : String) (rest : List String) :
    main d (p1 :: rest) = main d (p2 :: rest) := rfl

end Bldr
